import Mathlib

/-!
Shallow embedding of the Sustainable AI-Driven Packaging Optimization System
rule engine (backend/models): the dimension optimizer, material selector,
strength predictor and sustainability analyzer.  Real arithmetic is modelled
by the rationals (all reference constants are decimal literals, represented
exactly); Python operations that can raise are modelled with Option, where
a result of none corresponds to the Python call raising an exception.
-/

namespace Packaging

/-- Python int() applied to an exact rational: truncation toward zero. -/
def pyInt (q : ℚ) : ℤ := Int.tdiv q.num q.den

/-- Floor of a rational, as numpy floor on an exact value. -/
def ratFloor (q : ℚ) : ℤ := q.num / q.den

/-- Ceiling of a rational, as numpy ceil on an exact value. -/
def ratCeil (q : ℚ) : ℤ := -(ratFloor (-q))

/-- Round half up to the nearest integer, used to state the rounding reading
of the spec formulas (the code itself truncates via pyInt). -/
def roundNearest (q : ℚ) : ℤ := ratFloor (q + 1/2)

/-! ## Data model (material_selector.py) -/

/-- environmental_impact sub-record of a catalog material. -/
structure EnvironmentalImpact where
  co2_per_kg : ℚ
  water_usage_liters : ℚ
  energy_kwh : ℚ
deriving DecidableEq

/-- One entry of the fixed 7-material catalog (MaterialSelector.materials). -/
structure Material where
  name : String
  thickness : String
  recyclable : Bool
  biodegradable : Bool
  cost_factor : ℚ
  sustainability_score : ℚ
  strength_rating : String
  best_for : List String
  weight_limit : ℚ
  fragility_max : ℤ
  environmental_impact : EnvironmentalImpact
deriving DecidableEq

/-- The recycled_cardboard catalog entry, named for reuse in concrete
instantiations. -/
def recycledCardboardMat : Material :=
  { name := "Recycled Cardboard", thickness := "3mm",
    recyclable := true, biodegradable := true,
    cost_factor := 9/10, sustainability_score := 95,
    strength_rating := "Medium",
    best_for := ["books", "apparel", "toys"],
    weight_limit := 3, fragility_max := 3,
    environmental_impact := { co2_per_kg := 4/5, water_usage_liters := 20, energy_kwh := 5/2 } }

/-- Catalog in Python dict insertion order (MaterialSelector.__init__). -/
def materials : List (String × Material) :=
  [ ("recycled_cardboard", recycledCardboardMat),
    ("double_wall_corrugated",
     { name := "Double-Wall Corrugated Cardboard", thickness := "7mm",
       recyclable := true, biodegradable := true,
       cost_factor := 3/2, sustainability_score := 82,
       strength_rating := "High",
       best_for := ["heavy_items", "machinery"],
       weight_limit := 15, fragility_max := 4,
       environmental_impact := { co2_per_kg := 6/5, water_usage_liters := 35, energy_kwh := 4 } }),
    ("kraft_paper",
     { name := "100% Recycled Kraft Paper", thickness := "2mm",
       recyclable := true, biodegradable := true,
       cost_factor := 4/5, sustainability_score := 98,
       strength_rating := "Low-Medium",
       best_for := ["lightweight", "apparel", "documents"],
       weight_limit := 3/2, fragility_max := 2,
       environmental_impact := { co2_per_kg := 3/5, water_usage_liters := 15, energy_kwh := 2 } }),
    ("foam_insert_cardboard",
     { name := "Recycled Cardboard with Biodegradable Foam", thickness := "5mm",
       recyclable := true, biodegradable := true,
       cost_factor := 13/10, sustainability_score := 88,
       strength_rating := "High",
       best_for := ["electronics", "fragile_items"],
       weight_limit := 5, fragility_max := 5,
       environmental_impact := { co2_per_kg := 1, water_usage_liters := 25, energy_kwh := 16/5 } }),
    ("food_grade_cardboard",
     { name := "Food-Grade Biodegradable Cardboard", thickness := "4mm",
       recyclable := true, biodegradable := true,
       cost_factor := 11/10, sustainability_score := 92,
       strength_rating := "Medium-High",
       best_for := ["food", "cosmetics"],
       weight_limit := 4, fragility_max := 3,
       environmental_impact := { co2_per_kg := 9/10, water_usage_liters := 22, energy_kwh := 14/5 } }),
    ("molded_pulp",
     { name := "Molded Pulp (Recycled Paper)", thickness := "6mm",
       recyclable := true, biodegradable := true,
       cost_factor := 6/5, sustainability_score := 96,
       strength_rating := "Medium-High",
       best_for := ["electronics", "eggs", "produce"],
       weight_limit := 7/2, fragility_max := 4,
       environmental_impact := { co2_per_kg := 7/10, water_usage_liters := 18, energy_kwh := 23/10 } }),
    ("honeycomb_cardboard",
     { name := "Honeycomb Cardboard", thickness := "8mm",
       recyclable := true, biodegradable := true,
       cost_factor := 8/5, sustainability_score := 85,
       strength_rating := "Very High",
       best_for := ["heavy_items", "furniture", "machinery"],
       weight_limit := 20, fragility_max := 4,
       environmental_impact := { co2_per_kg := 11/10, water_usage_liters := 30, energy_kwh := 19/5 } }) ]

/-- A category preference profile (MaterialSelector.category_priorities entry). -/
structure CategoryPrefs where
  priority : String
  preferred_materials : List String
  min_strength : String
deriving DecidableEq

/-- Category mapping in Python dict insertion order. -/
def category_priorities : List (String × CategoryPrefs) :=
  [ ("electronics", ⟨"protection", ["foam_insert_cardboard", "molded_pulp"], "High"⟩),
    ("food", ⟨"safety", ["food_grade_cardboard", "molded_pulp"], "Medium"⟩),
    ("cosmetics", ⟨"presentation", ["food_grade_cardboard", "kraft_paper"], "Medium"⟩),
    ("apparel", ⟨"cost", ["kraft_paper", "recycled_cardboard"], "Low-Medium"⟩),
    ("books", ⟨"cost", ["recycled_cardboard", "kraft_paper"], "Medium"⟩),
    ("toys", ⟨"safety", ["recycled_cardboard", "food_grade_cardboard"], "Medium"⟩),
    ("other", ⟨"balance", ["recycled_cardboard"], "Medium"⟩) ]

/-- The default profile, category_priorities of the key "other". -/
def otherPrefs : CategoryPrefs := ⟨"balance", ["recycled_cardboard"], "Medium"⟩

/-- Python: category = category.lower() if category else "other" (empty string is falsy). -/
def normCategory (category : String) : String :=
  if category.isEmpty then "other" else category.toLower

/-- Python: self.category_priorities.get(category, self.category_priorities of "other"). -/
def categoryPrefsFor (category : String) : CategoryPrefs :=
  (List.lookup (normCategory category) category_priorities).getD otherPrefs

/-! ## Material selector scoring (MaterialSelector.select) -/

/-- Criterion 1, weight compatibility, reached only when weight is within the
limit: points and justification from the weight ratio. -/
def weightPoints (weight limit : ℚ) : ℚ × String :=
  let weightQuot := weight / limit
  if weightQuot < 1/2 then (30, "Excellent weight capacity")
  else if weightQuot < 3/4 then (25, "Good weight capacity")
  else (20, "Adequate weight capacity")

/-- Criterion 2, fragility handling: points and justification. -/
def fragilityPoints (fragility : ℤ) (m : Material) : ℚ × String :=
  if fragility ≤ m.fragility_max then
    if 4 ≤ fragility ∧ (m.strength_rating = "High" ∨ m.strength_rating = "Very High") then
      (25, "Excellent protection for fragile items")
    else if 4 ≤ fragility then (15, "Moderate protection for fragile items")
    else (20, "Suitable protection level")
  else (5, "May not provide sufficient protection")

/-- Criterion 3, sustainability points: linear in the sustainability score. -/
def sustainabilityPoints (m : Material) : ℚ := m.sustainability_score / 100 * 20

/-- Criterion 3 justification strings (appended only at 95 and 85 thresholds). -/
def sustainabilityReasons (m : Material) : List String :=
  if 95 ≤ m.sustainability_score then ["Exceptional sustainability"]
  else if 85 ≤ m.sustainability_score then ["High sustainability"]
  else []

/-- Criterion 4, category match points: 15 for a preferred key, 10 when the
whole material record equals some preferred record (value equality of
dicts in the source), else 5. -/
def categoryPoints (prefs : CategoryPrefs) (key : String) (m : Material) : ℚ :=
  if key ∈ prefs.preferred_materials then 15
  else if m ∈ prefs.preferred_materials.filterMap (fun k => List.lookup k materials) then 10
  else 5

/-- Criterion 4 justification strings. -/
def categoryReasons (prefs : CategoryPrefs) (key : String) (m : Material) (category : String) :
    List String :=
  if key ∈ prefs.preferred_materials then ["Optimized for " ++ category ++ " category"]
  else if m ∈ prefs.preferred_materials.filterMap (fun k => List.lookup k materials) then
    ["Suitable for " ++ category ++ " category"]
  else []

/-- Criterion 5, recyclability: points and justification strings. -/
def recyclabilityPoints (recyclable_priority : Bool) (m : Material) : ℚ × List String :=
  if recyclable_priority ∧ m.recyclable then (10, ["Fully recyclable"])
  else if m.recyclable then (7, [])
  else (0, [])

/-- Criterion 6, cost efficiency: points and justification. -/
def costPoints (m : Material) : ℚ × String :=
  if m.cost_factor ≤ 1 then (10, "Cost-effective")
  else if m.cost_factor ≤ 13/10 then (7, "Moderate cost")
  else (4, "Premium pricing")

/-- A scored candidate, one entry of the material_scores dict. -/
structure ScoredMat where
  key : String
  score : ℚ
  reasons : List String
  material : Material
deriving DecidableEq

/-- Scoring of a single material.  When the weight exceeds the weight limit the
source appends a reason and then executes continue, so the material never
enters material_scores: modelled by returning none. -/
def scoreMaterial (prefs : CategoryPrefs) (category : String) (weight : ℚ) (fragility : ℤ)
    (recyclable_priority : Bool) (key : String) (m : Material) : Option ScoredMat :=
  if weight ≤ m.weight_limit then
    let w := weightPoints weight m.weight_limit
    let f := fragilityPoints fragility m
    let r := recyclabilityPoints recyclable_priority m
    let c := costPoints m
    some { key := key,
           score := w.1 + f.1 + sustainabilityPoints m + categoryPoints prefs key m + r.1 + c.1,
           reasons := [w.2, f.2] ++ sustainabilityReasons m
             ++ categoryReasons prefs key m category ++ r.2 ++ [c.2],
           material := m }
  else none

/-- The material_scores dict, in catalog insertion order. -/
def scoredList (category : String) (weight : ℚ) (fragility : ℤ) (recyclable_priority : Bool) :
    List ScoredMat :=
  materials.filterMap fun p =>
    scoreMaterial (categoryPrefsFor category) (normCategory category)
      weight fragility recyclable_priority p.1 p.2

/-- One step of Python max: the running best is replaced only on a strictly
higher score, so ties keep the earlier (insertion-order) entry. -/
def pickStep (best c : ScoredMat) : ScoredMat :=
  if best.score < c.score then c else best

/-- Python max over the material_scores dict by score; raises ValueError on an
empty dict, modelled as none. -/
def pickBest : List ScoredMat → Option ScoredMat
  | [] => none
  | x :: xs => some (xs.foldl pickStep x)

/-- Stable insertion of a later element after all earlier elements with a score
at least as high: models Python sorted(..., reverse := True), a stable
descending sort. -/
def insertDesc (x : ScoredMat) : List ScoredMat → List ScoredMat
  | [] => [x]
  | y :: ys => if y.score ≤ x.score then x :: y :: ys else y :: insertDesc x ys

/-- Stable sort by score descending. -/
def sortDesc : List ScoredMat → List ScoredMat
  | [] => []
  | x :: xs => insertDesc x (sortDesc xs)

/-- One alternative entry returned by _get_alternatives. -/
structure Alternative where
  name : String
  score : ℚ
  thickness : String
  cost_factor : ℚ
  sustainability_score : ℚ
deriving DecidableEq

/-- _get_alternatives: the top count := 2 non-winning materials by descending
score. -/
def getAlternatives (scored : List ScoredMat) (selected_key : String) : List Alternative :=
  (((sortDesc scored).filter fun s => s.key != selected_key).take 2).map fun s =>
    { name := s.material.name, score := s.score, thickness := s.material.thickness,
      cost_factor := s.material.cost_factor,
      sustainability_score := s.material.sustainability_score }

/-- The value returned by select: the winning material record extended with the
selection score, the ordered reasons and the alternatives. -/
structure SelectResult where
  material : Material
  selection_score : ℚ
  selection_reasons : List String
  alternatives : List Alternative
deriving DecidableEq

/-- MaterialSelector.select.  none models the ValueError that Python max raises
when every material was skipped by the weight-limit continue. -/
def select (category : String) (weight : ℚ) (fragility : ℤ) (recyclable_priority : Bool) :
    Option SelectResult :=
  match pickBest (scoredList category weight fragility recyclable_priority) with
  | none => none
  | some best =>
      some { material := best.material, selection_score := best.score,
             selection_reasons := best.reasons,
             alternatives :=
               getAlternatives (scoredList category weight fragility recyclable_priority) best.key }

/-! ## Dimension optimizer (dimension_optimizer.py, optimize) -/

/-- padding_multiplier.get(fragility, 2.5): the fragility to base padding dict
with keys 1..5, unmapped fragility falling back to 2.5. -/
def basePadding (fragility : ℤ) : ℚ :=
  if fragility = 1 then 3/2
  else if fragility = 2 then 2
  else if fragility = 3 then 5/2
  else if fragility = 4 then 3
  else if fragility = 5 then 7/2
  else 5/2

/-- Weight-based padding adjustment, strictly-greater thresholds evaluated in
descending order. -/
def weightFactor (weight : ℚ) : ℚ :=
  if 10 < weight then 2
  else if 5 < weight then 3/2
  else if 2 < weight then 1
  else 1/2

/-- Total padding added to each of the three dimensions. -/
def totalPadding (fragility : ℤ) (weight : ℚ) : ℚ :=
  basePadding fragility + weightFactor weight

/-- The BoxDimensions record returned by optimize. -/
structure BoxDims where
  length : ℚ
  width : ℚ
  height : ℚ
  volume : ℚ
  space_utilization : ℚ
  padding_length : ℚ
  padding_width : ℚ
  padding_height : ℚ
deriving DecidableEq

/-- DimensionOptimizer.optimize: pad, ceil, floor up to the 5 cm minimum, and
derive volume and utilization. -/
def optimize (product_length product_width product_height weight : ℚ) (fragility : ℤ) :
    BoxDims :=
  let pad := totalPadding fragility weight
  let optimal_length : ℚ := max ((ratCeil (product_length + pad) : ℤ) : ℚ) 5
  let optimal_width : ℚ := max ((ratCeil (product_width + pad) : ℤ) : ℚ) 5
  let optimal_height : ℚ := max ((ratCeil (product_height + pad) : ℤ) : ℚ) 5
  let product_volume := product_length * product_width * product_height
  let box_volume := optimal_length * optimal_width * optimal_height
  { length := optimal_length, width := optimal_width, height := optimal_height,
    volume := box_volume,
    space_utilization := product_volume / box_volume * 100,
    padding_length := pad, padding_width := pad, padding_height := pad }

/-! ## Strength predictor (strength_predictor.py) -/

/-- One entry of the material strength database. -/
structure MatProps where
  base_strength : ℚ
  tensile_strength : ℚ
  compression : ℚ
  durability : ℚ
deriving DecidableEq

/-- The Recycled Cardboard entry, also the fallback for unknown names in
predict. -/
def recycledCardboardProps : MatProps :=
  { base_strength := 3/4, tensile_strength := 150, compression := 7/10, durability := 4/5 }

/-- material_properties dict in insertion order. -/
def material_properties : List (String × MatProps) :=
  [ ("Recycled Cardboard", recycledCardboardProps),
    ("Double-Wall Corrugated Cardboard",
     { base_strength := 19/20, tensile_strength := 250, compression := 23/25, durability := 22/25 }),
    ("100% Recycled Kraft Paper",
     { base_strength := 13/20, tensile_strength := 120, compression := 3/5, durability := 7/10 }),
    ("Recycled Cardboard with Biodegradable Foam",
     { base_strength := 17/20, tensile_strength := 180, compression := 17/20, durability := 9/10 }),
    ("Food-Grade Biodegradable Cardboard",
     { base_strength := 4/5, tensile_strength := 160, compression := 39/50, durability := 41/50 }),
    ("Foam Insert Box",
     { base_strength := 17/20, tensile_strength := 140, compression := 22/25, durability := 17/20 }) ]

/-- Box dimensions as passed to predict and analyze. -/
structure Dims where
  length : ℚ
  width : ℚ
  height : ℚ
deriving DecidableEq

/-- The scores part of the record returned by predict. -/
structure StrengthResult where
  strength : ℤ
  durability : ℤ
  compression_resistance : ℤ
  needs_reinforcement : Bool
  reinforcement_reason : Option String
deriving DecidableEq

/-- StrengthPredictor.predict.  The analysis sub-record of the source output
(volume-weight ratio and the three labels) is presentation-only and is not
modelled.  All numeric steps are mirrored line by line. -/
def predict (dims : Dims) (material_name : String) (weight : ℚ) (fragility : ℤ) :
    StrengthResult :=
  let material_props := (List.lookup material_name material_properties).getD recycledCardboardProps
  let base_strength := material_props.base_strength
  let compression_factor := material_props.compression
  let durability_factor := material_props.durability
  let volume := dims.length * dims.width * dims.height
  let weight_grams := weight * 1000
  let vwQuot := if 0 < weight_grams then volume / weight_grams else 0
  let strength_factor : ℚ :=
    if 500 < vwQuot then 49/50
    else if 300 < vwQuot then 23/25
    else if 150 < vwQuot then 17/20
    else if 75 < vwQuot then 3/4
    else 13/20
  let fragility_factor : ℚ :=
    if 4 ≤ fragility ∧ base_strength < 4/5 then 9/10
    else if 4 ≤ fragility then 21/20
    else if fragility ≤ 2 then 51/50
    else 1
  let max_dim := max dims.length (max dims.width dims.height)
  let min_dim := min dims.length (min dims.width dims.height)
  let aspectQuot : ℚ := if 0 < min_dim then max_dim / min_dim else 10
  let geometry_factor : ℚ :=
    if aspectQuot < 2 then 21/20
    else if aspectQuot < 3 then 1
    else 23/25
  let raw_strength := base_strength * strength_factor * fragility_factor * geometry_factor
  let strength_score := min 98 (max 60 (pyInt (raw_strength * 100)))
  let durability_score := min 98 (max 60 (pyInt (durability_factor * strength_factor * 100)))
  let compression_score := min 98 (max 65 (pyInt (compression_factor * geometry_factor * 100)))
  let reinforcement : Bool × Option String :=
    if strength_score < 70 then (true, some "Low overall strength score")
    else if 5 < weight ∧ strength_score < 80 then
      (true, some "Heavy product requires stronger material")
    else if 4 ≤ fragility ∧ strength_score < 85 then
      (true, some "Fragile product requires better protection")
    else (false, none)
  { strength := strength_score, durability := durability_score,
    compression_resistance := compression_score,
    needs_reinforcement := reinforcement.1, reinforcement_reason := reinforcement.2 }

/-- The record returned by predict_drop_test (recommendation string omitted). -/
structure DropResult where
  will_survive : Bool
  safety_margin : ℚ
  impact_energy : ℚ
  material_capacity : ℚ
deriving DecidableEq

/-- StrengthPredictor.predict_drop_test.  The source first calls predict (whose
result does not appear in the returned record), then looks the material up
with dict.get and no default: an unknown name yields None and the subsequent
subscript raises TypeError, modelled as none. -/
def predict_drop_test (dims : Dims) (material_name : String) (weight : ℚ)
    (height_cm : ℚ) : Option DropResult :=
  match List.lookup material_name material_properties with
  | none => none
  | some material_props =>
      let height_m := height_cm / 100
      let impact_energy := weight * (981/100) * height_m
      let max_impact := material_props.tensile_strength * (1/2)
      let will_survive := impact_energy < max_impact
      let safety_margin := (max_impact - impact_energy) / max_impact * 100
      some { will_survive := will_survive,
             safety_margin := max 0 safety_margin,
             impact_energy := impact_energy,
             material_capacity := max_impact }

/-! ## Sustainability analyzer (sustainability_analyzer.py) -/

/-- Thickness class to weight conversion factors (thickness_factors dict). -/
def thickness_factors : List (String × ℚ) :=
  [("2mm", 3/1000), ("3mm", 5/1000), ("4mm", 6/1000), ("5mm", 8/1000),
   ("6mm", 1/100), ("7mm", 3/250), ("8mm", 7/500)]

/-- self.thickness_factors.get(thickness, 0.005). -/
def thicknessFactor (thickness : String) : ℚ :=
  (List.lookup thickness thickness_factors).getD (5/1000)

/-- Surface area of a box, _calculate_surface_area. -/
def surfaceArea (d : Dims) : ℚ :=
  2 * (d.length * d.width + d.width * d.height + d.height * d.length)

/-- Product volume from the original dimensions. -/
def productVolume (d : Dims) : ℚ := d.length * d.width * d.height

/-- Traditional packaging volume: the original volume times the fixed 1.6
over-packaging factor. -/
def traditionalVolume (original : Dims) : ℚ := productVolume original * (8/5)

/-- Traditional material weight: surface area of the original dimensions each
padded by 10 cm, over 10000, times the 700 density and the thickness factor. -/
def traditionalWeight (original : Dims) (material : Material) : ℚ :=
  surfaceArea { length := original.length + 10, width := original.width + 10,
                height := original.height + 10 }
    / 10000 * 700 * thicknessFactor material.thickness

/-- Optimized material weight from the optimized dimensions. -/
def optimizedWeight (optimized : Dims) (material : Material) : ℚ :=
  surfaceArea optimized / 10000 * 700 * thicknessFactor material.thickness

/-- The flat part of the record returned by analyze.  The details and
annual_impact sub-records are derived presentation data and are not
modelled. -/
structure SustainReport where
  volume_reduction : ℚ
  material_saved_kg : ℚ
  material_reduction_percentage : ℚ
  co2_saved_kg : ℚ
  co2_reduction_percentage : ℚ
  water_saved_liters : ℚ
  energy_saved_kwh : ℚ
  trees_saved : ℚ
  transport_efficiency_gain : ℚ
  sustainability_score : ℚ
deriving DecidableEq

/-- SustainabilityAnalyzer.analyze.  Two Python divisions are unguarded: the
volume reduction divides by the traditional volume, and the transport
efficiency divides by the optimized volume; a zero denominator raises
ZeroDivisionError, modelled as none.  The material and CO2 percentage
divisions are guarded in the source by an explicit positivity test. -/
def analyze (original_dims optimized_dims : Dims) (material : Material)
    (product_weight : ℚ) : Option SustainReport :=
  let traditional_volume := traditionalVolume original_dims
  let optimized_volume := productVolume optimized_dims
  if traditional_volume = 0 then none
  else if optimized_volume = 0 then none
  else
    let volume_reduction :=
      max 0 (min 95 ((traditional_volume - optimized_volume) / traditional_volume * 100))
    let traditional_material_weight := traditionalWeight original_dims material
    let optimized_material_weight := optimizedWeight optimized_dims material
    let material_saved_kg := traditional_material_weight - optimized_material_weight
    let material_reduction_pct :=
      if 0 < traditional_material_weight then
        material_saved_kg / traditional_material_weight * 100
      else 0
    let traditional_co2 := traditional_material_weight * (6/5)
    let optimized_co2 := optimized_material_weight * material.environmental_impact.co2_per_kg
    let co2_saved := traditional_co2 - optimized_co2
    let co2_reduction_pct := if 0 < traditional_co2 then co2_saved / traditional_co2 * 100 else 0
    let traditional_water := traditional_material_weight * 40
    let optimized_water := optimized_material_weight * material.environmental_impact.water_usage_liters
    let traditional_energy := traditional_material_weight * 5
    let optimized_energy := optimized_material_weight * material.environmental_impact.energy_kwh
    let traditional_units := 80000000 / traditional_volume
    let optimized_units := 80000000 / optimized_volume
    let transport_efficiency :=
      max 0 (min 100 ((optimized_units - traditional_units) / traditional_units * 100))
    let sustainability_score :=
      min 100 (max 0 (volume_reduction * (1/4) + material_reduction_pct * (1/4)
        + co2_reduction_pct * (1/4) + material.sustainability_score * (1/4)))
    some { volume_reduction := volume_reduction,
           material_saved_kg := material_saved_kg,
           material_reduction_percentage := material_reduction_pct,
           co2_saved_kg := co2_saved,
           co2_reduction_percentage := co2_reduction_pct,
           water_saved_liters := traditional_water - optimized_water,
           energy_saved_kwh := traditional_energy - optimized_energy,
           trees_saved := material_saved_kg / 100,
           transport_efficiency_gain := transport_efficiency,
           sustainability_score := sustainability_score }

/-! ## Spec-side strength formulas

The following definitions transcribe the strength formulas as the spec words
them, to be compared with the code embedding predict: the volume-weight ratio
is written as a plain quotient (the spec states weight > 0 as a precondition)
and the aspect ratio treats a zero minimum dimension as ratio 10. -/

/-- Spec: volumeWeightRatio = boxVolume / (weight in grams). -/
def vwQuotSpec (dims : Dims) (weight : ℚ) : ℚ :=
  dims.length * dims.width * dims.height / (weight * 1000)

/-- Spec: strengthFactor banded by descending thresholds 500, 300, 150, 75. -/
def strengthFactorSpec (r : ℚ) : ℚ :=
  if 500 < r then 49/50
  else if 300 < r then 23/25
  else if 150 < r then 17/20
  else if 75 < r then 3/4
  else 13/20

/-- Spec: fragilityFactor from fragility and baseStrength. -/
def fragilityFactorSpec (fragility : ℤ) (base : ℚ) : ℚ :=
  if 4 ≤ fragility ∧ base < 4/5 then 9/10
  else if 4 ≤ fragility then 21/20
  else if fragility ≤ 2 then 51/50
  else 1

/-- Spec: aspect ratio = max dimension / min dimension, min-dim 0 treated as
ratio 10. -/
def aspectQuotSpec (dims : Dims) : ℚ :=
  let mx := max dims.length (max dims.width dims.height)
  let mn := min dims.length (min dims.width dims.height)
  if mn = 0 then 10 else mx / mn

/-- Spec: geometryFactor from the aspect ratio. -/
def geometryFactorSpec (dims : Dims) : ℚ :=
  if aspectQuotSpec dims < 2 then 21/20
  else if aspectQuotSpec dims < 3 then 1
  else 23/25

/-- Base strength of a material name under the lookup-with-default policy. -/
def baseStrengthFor (material_name : String) : ℚ :=
  ((List.lookup material_name material_properties).getD recycledCardboardProps).base_strength

/-- Durability factor of a material name under the lookup-with-default policy. -/
def durabilityFor (material_name : String) : ℚ :=
  ((List.lookup material_name material_properties).getD recycledCardboardProps).durability

/-- Compression factor of a material name under the lookup-with-default policy. -/
def compressionFor (material_name : String) : ℚ :=
  ((List.lookup material_name material_properties).getD recycledCardboardProps).compression

/-- Spec: rawStrength = baseStrength x strengthFactor x fragilityFactor x
geometryFactor. -/
def rawStrengthSpec (dims : Dims) (material_name : String) (weight : ℚ) (fragility : ℤ) : ℚ :=
  baseStrengthFor material_name * strengthFactorSpec (vwQuotSpec dims weight)
    * fragilityFactorSpec fragility (baseStrengthFor material_name)
    * geometryFactorSpec dims

/-! ## General lemmas -/

theorem ratFloor_eq_floor (q : ℚ) : ratFloor q = ⌊q⌋ := Rat.floor_def.symm

theorem le_ratCeil (q : ℚ) : q ≤ ((ratCeil q : ℤ) : ℚ) := by
  unfold ratCeil
  rw [ratFloor_eq_floor]
  push_cast
  have h := Int.floor_le (-q)
  linarith

/-! ## Claim theorems -/

/-- Claim C5: for every valid input to optimize, each outer dimension is at
least 5, each outer dimension is at least the corresponding input dimension
plus the reported padding, and the returned volume is exactly the product of
the three returned outer dimensions. -/
theorem optimize_box_bounds (product_length product_width product_height weight : ℚ)
    (fragility : ℤ) (hl : 0 < product_length) (hw : 0 < product_width)
    (hh : 0 < product_height) (hwt : 0 < weight) (hf1 : 1 ≤ fragility) (hf5 : fragility ≤ 5) :
    (5 ≤ (optimize product_length product_width product_height weight fragility).length ∧
     5 ≤ (optimize product_length product_width product_height weight fragility).width ∧
     5 ≤ (optimize product_length product_width product_height weight fragility).height) ∧
    (product_length + (optimize product_length product_width product_height weight fragility).padding_length
       ≤ (optimize product_length product_width product_height weight fragility).length ∧
     product_width + (optimize product_length product_width product_height weight fragility).padding_width
       ≤ (optimize product_length product_width product_height weight fragility).width ∧
     product_height + (optimize product_length product_width product_height weight fragility).padding_height
       ≤ (optimize product_length product_width product_height weight fragility).height) ∧
    (optimize product_length product_width product_height weight fragility).volume
      = (optimize product_length product_width product_height weight fragility).length
        * (optimize product_length product_width product_height weight fragility).width
        * (optimize product_length product_width product_height weight fragility).height := by
  refine ⟨⟨?_, ?_, ?_⟩, ⟨?_, ?_, ?_⟩, ?_⟩ <;> simp only [optimize]
  · exact le_max_right _ _
  · exact le_max_right _ _
  · exact le_max_right _ _
  · exact le_trans (le_ratCeil _) (le_max_left _ _)
  · exact le_trans (le_ratCeil _) (le_max_left _ _)
  · exact le_trans (le_ratCeil _) (le_max_left _ _)

/-- Witness for C5 at the spec scenario 18 x 14 x 7, weight 0.5, fragility 4. -/
theorem optimize_box_bounds_witness :
    (0:ℚ) < 18 ∧ (0:ℚ) < 14 ∧ (0:ℚ) < 7 ∧ (0:ℚ) < 1/2 ∧ (1:ℤ) ≤ 4 ∧ (4:ℤ) ≤ 5 ∧
    ((5 ≤ (optimize 18 14 7 (1/2) 4).length ∧
      5 ≤ (optimize 18 14 7 (1/2) 4).width ∧
      5 ≤ (optimize 18 14 7 (1/2) 4).height) ∧
     (18 + (optimize 18 14 7 (1/2) 4).padding_length ≤ (optimize 18 14 7 (1/2) 4).length ∧
      14 + (optimize 18 14 7 (1/2) 4).padding_width ≤ (optimize 18 14 7 (1/2) 4).width ∧
      7 + (optimize 18 14 7 (1/2) 4).padding_height ≤ (optimize 18 14 7 (1/2) 4).height) ∧
     (optimize 18 14 7 (1/2) 4).volume
       = (optimize 18 14 7 (1/2) 4).length * (optimize 18 14 7 (1/2) 4).width
         * (optimize 18 14 7 (1/2) 4).height) :=
  ⟨by norm_num, by norm_num, by norm_num, by norm_num, by norm_num, by norm_num,
   optimize_box_bounds 18 14 7 (1/2) 4 (by norm_num) (by norm_num) (by norm_num)
     (by norm_num) (by norm_num) (by norm_num)⟩

/-- Claim C6: for every input to predict, the three scores lie in the
documented bands: strength and durability in 60..98, compression in 65..98. -/
theorem predict_scores_in_bands (dims : Dims) (material_name : String) (weight : ℚ)
    (fragility : ℤ) :
    60 ≤ (predict dims material_name weight fragility).strength ∧
    (predict dims material_name weight fragility).strength ≤ 98 ∧
    60 ≤ (predict dims material_name weight fragility).durability ∧
    (predict dims material_name weight fragility).durability ≤ 98 ∧
    65 ≤ (predict dims material_name weight fragility).compression_resistance ∧
    (predict dims material_name weight fragility).compression_resistance ≤ 98 := by
  simp only [predict]
  omega

/-- Claim C8: total padding is monotone non-decreasing in fragility over 1..5
at fixed weight, and monotone non-decreasing in weight at fixed fragility. -/
theorem padding_monotone :
    (∀ f1 f2 : ℤ, 1 ≤ f1 → f1 ≤ f2 → f2 ≤ 5 → ∀ w : ℚ,
       totalPadding f1 w ≤ totalPadding f2 w) ∧
    (∀ f : ℤ, ∀ w1 w2 : ℚ, w1 ≤ w2 → totalPadding f w1 ≤ totalPadding f w2) := by
  constructor
  · intro f1 f2 h1 h12 h5 w
    unfold totalPadding
    have hb : basePadding f1 ≤ basePadding f2 := by
      have h15 : f1 ≤ 5 := le_trans h12 h5
      have h2 : 1 ≤ f2 := le_trans h1 h12
      interval_cases f1 <;> interval_cases f2 <;> norm_num [basePadding]
    linarith
  · intro f w1 w2 h
    unfold totalPadding weightFactor
    split_ifs <;> linarith

/-- Witness for C8: fragility step 2 to 4 at weight 3, and weight step 1 to 8
at fragility 2. -/
theorem padding_monotone_witness :
    ((1:ℤ) ≤ 2 ∧ (2:ℤ) ≤ 4 ∧ (4:ℤ) ≤ 5 ∧ totalPadding 2 3 ≤ totalPadding 4 3) ∧
    ((1:ℚ) ≤ 8 ∧ totalPadding 2 1 ≤ totalPadding 2 8) :=
  ⟨⟨by norm_num, by norm_num, by norm_num,
    padding_monotone.1 2 4 (by norm_num) (by norm_num) (by norm_num) 3⟩,
   ⟨by norm_num, padding_monotone.2 2 1 8 (by norm_num)⟩⟩

/-- Claim C9: select is deterministic and referentially transparent: equal
arguments produce equal results, including the winner, its score and reasons,
and the ordered alternatives list. -/
theorem select_deterministic (c1 c2 : String) (w1 w2 : ℚ) (f1 f2 : ℤ) (r1 r2 : Bool)
    (hc : c1 = c2) (hw : w1 = w2) (hf : f1 = f2) (hr : r1 = r2) :
    select c1 w1 f1 r1 = select c2 w2 f2 r2 := by
  subst hc; subst hw; subst hf; subst hr; rfl

/-- Witness for C9 at a concrete repeated invocation. -/
theorem select_deterministic_witness :
    select "food" 2 3 true = select "food" 2 3 true :=
  select_deterministic "food" "food" 2 2 3 3 true true rfl rfl rfl rfl

/-! ## Selector lemmas -/

theorem foldl_pickStep_mem (xs : List ScoredMat) (a : ScoredMat) :
    xs.foldl pickStep a = a ∨ xs.foldl pickStep a ∈ xs := by
  induction xs generalizing a with
  | nil => exact Or.inl rfl
  | cons x xs ih =>
    simp only [List.foldl_cons]
    rcases ih (pickStep a x) with h | h
    · rw [h]
      unfold pickStep
      split_ifs
      · exact Or.inr (List.mem_cons_self x xs)
      · exact Or.inl rfl
    · exact Or.inr (List.mem_cons_of_mem x h)

theorem pickBest_mem {l : List ScoredMat} {b : ScoredMat} (h : pickBest l = some b) :
    b ∈ l := by
  cases l with
  | nil => simp [pickBest] at h
  | cons x xs =>
    simp only [pickBest, Option.some.injEq] at h
    subst h
    rcases foldl_pickStep_mem xs x with h2 | h2
    · rw [h2]; exact List.mem_cons_self x xs
    · exact List.mem_cons_of_mem x h2

theorem pickBest_eq_none {l : List ScoredMat} (h : pickBest l = none) : l = [] := by
  cases l with
  | nil => rfl
  | cons x xs => simp [pickBest] at h

theorem scoreMaterial_some (prefs : CategoryPrefs) (category : String) (weight : ℚ)
    (fragility : ℤ) (rp : Bool) (key : String) (m : Material)
    (h : weight ≤ m.weight_limit) :
    ∃ s, scoreMaterial prefs category weight fragility rp key m = some s := by
  unfold scoreMaterial
  rw [if_pos h]
  exact ⟨_, rfl⟩

theorem scoreMaterial_weight (prefs : CategoryPrefs) (category : String) (weight : ℚ)
    (fragility : ℤ) (rp : Bool) (key : String) (m : Material) (s : ScoredMat)
    (h : scoreMaterial prefs category weight fragility rp key m = some s) :
    weight ≤ s.material.weight_limit := by
  unfold scoreMaterial at h
  by_cases hw : weight ≤ m.weight_limit
  · rw [if_pos hw] at h
    injection h with h2
    subst h2
    exact hw
  · rw [if_neg hw] at h
    exact absurd h (by simp)

theorem scoredList_weight (category : String) (weight : ℚ) (fragility : ℤ) (rp : Bool)
    (s : ScoredMat) (h : s ∈ scoredList category weight fragility rp) :
    weight ≤ s.material.weight_limit := by
  unfold scoredList at h
  rw [List.mem_filterMap] at h
  obtain ⟨p, _, hp⟩ := h
  exact scoreMaterial_weight _ _ _ _ _ _ _ _ hp

theorem scoredList_ne_nil (category : String) (weight : ℚ) (fragility : ℤ) (rp : Bool)
    (p : String × Material) (hp : p ∈ materials) (hw : weight ≤ p.2.weight_limit) :
    scoredList category weight fragility rp ≠ [] := by
  obtain ⟨s, hs⟩ := scoreMaterial_some (categoryPrefsFor category) (normCategory category)
    weight fragility rp p.1 p.2 hw
  exact List.ne_nil_of_mem (List.mem_filterMap.mpr ⟨p, hp, hs⟩)

/-- Claim C1 (amended): when every catalog material is weight-disqualified,
all candidates are removed by the continue, so the max over the empty
candidate dict raises and select returns no selection at all. -/
theorem select_none_of_all_overweight (category : String) (weight : ℚ) (fragility : ℤ)
    (rp : Bool) (h : 20 < weight) : select category weight fragility rp = none := by
  have hs : scoredList category weight fragility rp = [] := by
    unfold scoredList
    rw [List.filterMap_eq_nil_iff]
    intro p hp
    have hlim : p.2.weight_limit ≤ 20 := by
      fin_cases hp <;> norm_num [recycledCardboardMat]
    unfold scoreMaterial
    rw [if_neg (by push_neg; linarith)]
  unfold select
  rw [hs]
  rfl

/-- Counterexample to C1 as stated: with weight 25 every weight limit is
exceeded and select yields no best-effort result. -/
theorem select_overweight_not_best_effort : select "" 25 3 true = none := by
  norm_num [select, scoredList, scoreMaterial, materials, recycledCardboardMat,
    List.filterMap_cons, pickBest]

/-- Witness for the amended C1. -/
theorem select_none_of_all_overweight_witness :
    (20:ℚ) < 21 ∧ select "books" 21 2 false = none :=
  ⟨by norm_num, select_none_of_all_overweight "books" 21 2 false (by norm_num)⟩

/-- Claim C2: whenever some catalog material can carry the weight, select
succeeds and the selected material satisfies the weight limit. -/
theorem select_respects_weight_limit (category : String) (weight : ℚ) (fragility : ℤ)
    (rp : Bool) (h : ∃ p ∈ materials, weight ≤ p.2.weight_limit) :
    ∃ r, select category weight fragility rp = some r
      ∧ weight ≤ r.material.weight_limit := by
  obtain ⟨p, hp, hw⟩ := h
  have hne := scoredList_ne_nil category weight fragility rp p hp hw
  cases hb : pickBest (scoredList category weight fragility rp) with
  | none => exact absurd (pickBest_eq_none hb) hne
  | some b =>
    have hsel : select category weight fragility rp
        = some { material := b.material, selection_score := b.score,
                 selection_reasons := b.reasons,
                 alternatives := getAlternatives (scoredList category weight fragility rp) b.key } := by
      unfold select
      rw [hb]
    exact ⟨_, hsel, scoredList_weight category weight fragility rp b (pickBest_mem hb)⟩

/-- Witness for C2 at weight 1 and the default category. -/
theorem select_respects_weight_limit_witness :
    (∃ p ∈ materials, (1:ℚ) ≤ p.2.weight_limit) ∧
    (∃ r, select "" 1 3 true = some r ∧ (1:ℚ) ≤ r.material.weight_limit) :=
  have hex : ∃ p ∈ materials, (1:ℚ) ≤ p.2.weight_limit :=
    ⟨("recycled_cardboard", recycledCardboardMat), by simp [materials],
     by norm_num [recycledCardboardMat]⟩
  ⟨hex, select_respects_weight_limit "" 1 3 true hex⟩

/-! ## Category affinity lemmas -/

theorem mem_of_lookup {β : Type} (l : List (String × β)) (k : String) (v : β)
    (h : List.lookup k l = some v) : v ∈ l.map Prod.snd := by
  induction l with
  | nil => simp [List.lookup] at h
  | cons p t ih =>
    obtain ⟨a, b⟩ := p
    rw [List.lookup_cons] at h
    cases hk : (k == a) <;> simp only [hk] at h
    · rw [List.map_cons]
      exact List.mem_cons_of_mem _ (ih h)
    · injection h with h2
      subst h2
      rw [List.map_cons]
      exact List.mem_cons_self _ _

theorem prefsFor_mem (category : String) :
    categoryPrefsFor category ∈ category_priorities.map Prod.snd := by
  unfold categoryPrefsFor
  cases h : List.lookup (normCategory category) category_priorities with
  | none => simp only [Option.getD_none]; decide
  | some v => simpa using mem_of_lookup _ _ _ h

theorem catPoints_aux :
    ∀ prefs ∈ category_priorities.map Prod.snd, ∀ p ∈ materials,
      categoryPoints prefs p.1 p.2
        = if p.1 ∈ prefs.preferred_materials then 15 else 5 := by
  intro prefs hprefs p hp
  fin_cases hprefs <;> fin_cases hp <;>
    simp [categoryPoints, materials, recycledCardboardMat, List.lookup]

/-- Claim C10: no two distinct catalog materials have value-equal records, and
for every call to select the category-affinity criterion contributes exactly
15 points for a preferred key and exactly 5 otherwise; the intermediate
10-point record-equality branch is never taken. -/
theorem category_points_binary :
    materials.Pairwise (fun a b => a.2 ≠ b.2) ∧
    ∀ (category : String) (p : String × Material), p ∈ materials →
      categoryPoints (categoryPrefsFor category) p.1 p.2
        = if p.1 ∈ (categoryPrefsFor category).preferred_materials then 15 else 5 :=
  ⟨by simp [materials, recycledCardboardMat],
   fun category p hp => catPoints_aux (categoryPrefsFor category) (prefsFor_mem category) p hp⟩

/-- Witness for C10 at the default category and the recycled cardboard entry. -/
theorem category_points_binary_witness :
    categoryPoints (categoryPrefsFor "") "recycled_cardboard" recycledCardboardMat
      = if "recycled_cardboard" ∈ (categoryPrefsFor "").preferred_materials then 15 else 5 :=
  category_points_binary.2 "" ("recycled_cardboard", recycledCardboardMat)
    (by simp [materials])

/-! ## Lookup fallback behavior (C3) -/

/-- Claim C3 (amended): predict falls back to the Recycled Cardboard
properties for an unknown material name, and analyze falls back to the 3mm
thickness factor for an unknown thickness class, both without failing; but
predict_drop_test, whose capacity lookup has no default, fails on an unknown
material name instead of substituting the default. -/
theorem lookup_fallbacks (material_name : String)
    (hname : List.lookup material_name material_properties = none)
    (t : String) (ht : List.lookup t thickness_factors = none)
    (dims : Dims) (w : ℚ) (f : ℤ) (hcm : ℚ) (orig opt : Dims) (m : Material) (pw : ℚ) :
    predict dims material_name w f = predict dims "Recycled Cardboard" w f ∧
    predict_drop_test dims material_name w hcm = none ∧
    analyze orig opt { m with thickness := t } pw
      = analyze orig opt { m with thickness := "3mm" } pw := by
  have h1 : thicknessFactor t = thicknessFactor "3mm" := by
    unfold thicknessFactor
    rw [ht]
    rfl
  refine ⟨?_, ?_, ?_⟩
  · unfold predict
    rw [hname]
    rfl
  · unfold predict_drop_test
    rw [hname]
  · have hw1 : traditionalWeight orig { m with thickness := t }
        = traditionalWeight orig { m with thickness := "3mm" } := by
      unfold traditionalWeight
      rw [show ({ m with thickness := t } : Material).thickness = t from rfl,
        show ({ m with thickness := "3mm" } : Material).thickness = "3mm" from rfl, h1]
    have hw2 : optimizedWeight opt { m with thickness := t }
        = optimizedWeight opt { m with thickness := "3mm" } := by
      unfold optimizedWeight
      rw [show ({ m with thickness := t } : Material).thickness = t from rfl,
        show ({ m with thickness := "3mm" } : Material).thickness = "3mm" from rfl, h1]
    unfold analyze
    rw [hw1, hw2]

/-- Counterexample to C3 as stated: Honeycomb Cardboard is absent from the
strength-properties table, and the drop test fails on it instead of
substituting the Recycled Cardboard entry. -/
theorem drop_test_unknown_material_fails :
    predict_drop_test ⟨25, 20, 15⟩ "Honeycomb Cardboard" (3/2) 100 = none := rfl

/-- Witness for the amended C3 at an unknown name and thickness class. -/
theorem lookup_fallbacks_witness :
    List.lookup "Styrofoam" material_properties = none ∧
    List.lookup "9mm" thickness_factors = none ∧
    (predict ⟨25, 20, 15⟩ "Styrofoam" (3/2) 3 = predict ⟨25, 20, 15⟩ "Recycled Cardboard" (3/2) 3 ∧
     predict_drop_test ⟨25, 20, 15⟩ "Styrofoam" (3/2) 100 = none ∧
     analyze ⟨20, 15, 8⟩ ⟨22, 17, 10⟩ { recycledCardboardMat with thickness := "9mm" } (1/2)
       = analyze ⟨20, 15, 8⟩ ⟨22, 17, 10⟩ { recycledCardboardMat with thickness := "3mm" } (1/2)) :=
  ⟨rfl, rfl,
   lookup_fallbacks "Styrofoam" rfl "9mm" rfl ⟨25, 20, 15⟩ (3/2) 3 100 ⟨20, 15, 8⟩
     ⟨22, 17, 10⟩ recycledCardboardMat (1/2)⟩

/-! ## Strength score rounding mode (C4) -/

/-- Claim C4 (amended): the three scores follow the spec formulas with Python
int truncation toward zero applied before clamping, not rounding to the
nearest integer. -/
theorem predict_scores_truncate (dims : Dims) (material_name : String) (w : ℚ) (f : ℤ)
    (hl : 0 < dims.length) (hw : 0 < dims.width) (hh : 0 < dims.height) (hwt : 0 < w) :
    (predict dims material_name w f).strength
      = min 98 (max 60 (pyInt (rawStrengthSpec dims material_name w f * 100))) ∧
    (predict dims material_name w f).durability
      = min 98 (max 60 (pyInt (durabilityFor material_name
          * strengthFactorSpec (vwQuotSpec dims w) * 100))) ∧
    (predict dims material_name w f).compression_resistance
      = min 98 (max 65 (pyInt (compressionFor material_name * geometryFactorSpec dims * 100))) := by
  have hwg : (0:ℚ) < w * 1000 := by positivity
  have hmn : (0:ℚ) < min dims.length (min dims.width dims.height) := lt_min hl (lt_min hw hh)
  have hne : ¬ (min dims.length (min dims.width dims.height) = (0:ℚ)) := ne_of_gt hmn
  refine ⟨?_, ?_, ?_⟩ <;>
    simp only [predict, rawStrengthSpec, baseStrengthFor, durabilityFor, compressionFor,
      strengthFactorSpec, fragilityFactorSpec, geometryFactorSpec, aspectQuotSpec, vwQuotSpec,
      if_pos hwg, if_pos hmn, if_neg hne]

/-- Counterexample to C4 as stated: at box 10 x 10 x 10, material Recycled
Cardboard, weight 0.001 kg and fragility 2, the raw strength is 0.787185, the
code truncates 78.7185 to a strength score of 78, while clamping the rounded
value as the claim states gives 79. -/
theorem predict_truncates_not_rounds :
    (predict ⟨10, 10, 10⟩ "Recycled Cardboard" (1/1000) 2).strength = 78 ∧
    min 98 (max 60 (roundNearest
      (rawStrengthSpec ⟨10, 10, 10⟩ "Recycled Cardboard" (1/1000) 2 * 100))) = 79 := by
  constructor
  · norm_num [predict, material_properties, recycledCardboardProps, List.lookup, pyInt]
    decide
  · norm_num [rawStrengthSpec, baseStrengthFor, strengthFactorSpec, fragilityFactorSpec,
      geometryFactorSpec, aspectQuotSpec, vwQuotSpec, material_properties,
      recycledCardboardProps, List.lookup, roundNearest, ratFloor]

/-- Witness for the amended C4 at the spec scenario box 25 x 20 x 15. -/
theorem predict_scores_truncate_witness :
    (0:ℚ) < 25 ∧ (0:ℚ) < 20 ∧ (0:ℚ) < 15 ∧ (0:ℚ) < 3/2 ∧
    ((predict ⟨25, 20, 15⟩ "Recycled Cardboard" (3/2) 3).strength
       = min 98 (max 60 (pyInt (rawStrengthSpec ⟨25, 20, 15⟩ "Recycled Cardboard" (3/2) 3 * 100))) ∧
     (predict ⟨25, 20, 15⟩ "Recycled Cardboard" (3/2) 3).durability
       = min 98 (max 60 (pyInt (durabilityFor "Recycled Cardboard"
           * strengthFactorSpec (vwQuotSpec ⟨25, 20, 15⟩ (3/2)) * 100))) ∧
     (predict ⟨25, 20, 15⟩ "Recycled Cardboard" (3/2) 3).compression_resistance
       = min 98 (max 65 (pyInt (compressionFor "Recycled Cardboard"
           * geometryFactorSpec ⟨25, 20, 15⟩ * 100)))) :=
  ⟨by norm_num, by norm_num, by norm_num, by norm_num,
   predict_scores_truncate ⟨25, 20, 15⟩ "Recycled Cardboard" (3/2) 3 (by norm_num)
     (by norm_num) (by norm_num) (by norm_num)⟩

/-! ## Sustainability percentage guards (C7) -/

/-- Claim C7 (amended): the material and CO2 reduction percentages follow the
reduction formula and are guarded, yielding 0 on a non-positive denominator;
the volume reduction follows the clamped formula but its division is
unguarded, so analyze only returns a report when the traditional volume is
non-zero (and the transport division likewise requires a non-zero optimized
volume). -/
theorem analyze_percentage_guards (orig opt : Dims) (m : Material) (pw : ℚ)
    (h1 : ¬ (traditionalVolume orig = 0)) (h2 : ¬ (productVolume opt = 0)) :
    ∃ r, analyze orig opt m pw = some r ∧
      r.volume_reduction
        = max 0 (min 95
            ((traditionalVolume orig - productVolume opt) / traditionalVolume orig * 100)) ∧
      r.material_reduction_percentage
        = (if 0 < traditionalWeight orig m then
             (traditionalWeight orig m - optimizedWeight opt m)
               / traditionalWeight orig m * 100
           else 0) ∧
      r.co2_reduction_percentage
        = (if 0 < traditionalWeight orig m * (6/5) then
             (traditionalWeight orig m * (6/5)
                 - optimizedWeight opt m * m.environmental_impact.co2_per_kg)
               / (traditionalWeight orig m * (6/5)) * 100
           else 0) := by
  simp only [analyze]
  rw [if_neg h1, if_neg h2]
  exact ⟨_, rfl, rfl, rfl, rfl⟩

/-- Counterexample to C7 as stated: a zero traditional volume (original length
0) makes the unguarded volume-reduction division fail instead of reporting a
0 percentage. -/
theorem analyze_zero_volume_fails :
    analyze ⟨0, 15, 8⟩ ⟨22, 17, 10⟩ recycledCardboardMat (1/2) = none := by
  norm_num [analyze, traditionalVolume, productVolume]

/-- Witness for the amended C7 at the spec scenario. -/
theorem analyze_percentage_guards_witness :
    ¬ (traditionalVolume ⟨20, 15, 8⟩ = 0) ∧ ¬ (productVolume ⟨22, 17, 10⟩ = 0) ∧
    (∃ r, analyze ⟨20, 15, 8⟩ ⟨22, 17, 10⟩ recycledCardboardMat (1/2) = some r ∧
      r.volume_reduction
        = max 0 (min 95 ((traditionalVolume ⟨20, 15, 8⟩ - productVolume ⟨22, 17, 10⟩)
            / traditionalVolume ⟨20, 15, 8⟩ * 100)) ∧
      r.material_reduction_percentage
        = (if 0 < traditionalWeight ⟨20, 15, 8⟩ recycledCardboardMat then
             (traditionalWeight ⟨20, 15, 8⟩ recycledCardboardMat
                 - optimizedWeight ⟨22, 17, 10⟩ recycledCardboardMat)
               / traditionalWeight ⟨20, 15, 8⟩ recycledCardboardMat * 100
           else 0) ∧
      r.co2_reduction_percentage
        = (if 0 < traditionalWeight ⟨20, 15, 8⟩ recycledCardboardMat * (6/5) then
             (traditionalWeight ⟨20, 15, 8⟩ recycledCardboardMat * (6/5)
                 - optimizedWeight ⟨22, 17, 10⟩ recycledCardboardMat
                   * recycledCardboardMat.environmental_impact.co2_per_kg)
               / (traditionalWeight ⟨20, 15, 8⟩ recycledCardboardMat * (6/5)) * 100
           else 0)) :=
  ⟨by norm_num [traditionalVolume, productVolume],
   by norm_num [productVolume],
   analyze_percentage_guards ⟨20, 15, 8⟩ ⟨22, 17, 10⟩ recycledCardboardMat (1/2)
     (by norm_num [traditionalVolume, productVolume]) (by norm_num [productVolume])⟩

end Packaging
